import Mathlib

/-!
Verification of the Jira epic-statistics ETL script (src/index.ts).

The TypeScript source is shallowly embedded as follows:
* raw API records (`RawTicket` and its nested objects) keep the source field
  names; every nested structure that the script may receive as `undefined`
  is wrapped in `Option`;
* JavaScript property access on a possibly-`undefined` value is modelled with
  `Except String`: a direct access on an absent structure produces
  `Except.error` (a thrown `TypeError`), while safe navigation (`?.`)
  produces `none`;
* the paginated fetch loop is modelled with explicit fuel, since the
  JavaScript loop has no bound and can diverge against a misbehaving API;
* the JavaScript object used as the epic map preserves string-key insertion
  order (Jira keys such as "CENPRO-7" are never array indices), so it is
  modelled as an association list updated in place.
-/

namespace P2Stats

/-- Nested object exposing a `name` field (Jira `status` / `resolution` /
link `type` objects). -/
structure NameObj where
  name : String
  deriving DecidableEq, Repr

/-- Nested object exposing a `displayName` field (Jira `reporter` and the
`customfield_28100` SVP-owner object). -/
structure DisplayNameObj where
  displayName : String
  deriving DecidableEq, Repr

/-- The target of an issue link; its `key` may be absent in a raw record. -/
structure OutwardIssue where
  key : Option String
  deriving DecidableEq, Repr

/-- One entry of `fields.issuelinks`: a link-type object and an optional
outward issue. -/
structure IssueLink where
  type : NameObj
  outwardIssue : Option OutwardIssue
  deriving DecidableEq, Repr

/-- The `fields` object of a raw API ticket, with the source field names.
Every field that can be missing from an API response is an `Option`. -/
structure RawFields where
  labels : Option (List String)
  summary : Option String
  created : Option String
  customfield_10002 : Option String
  resolutiondate : Option String
  customfield_28100 : Option DisplayNameObj
  reporter : Option DisplayNameObj
  status : Option NameObj
  resolution : Option NameObj
  issuelinks : Option (List IssueLink)
  deriving DecidableEq, Repr

/-- A raw ticket as returned by the Jira search endpoint. -/
structure RawTicket where
  key : String
  fields : RawFields
  deriving DecidableEq, Repr

/-- The normalized domain record produced by `getTickets`.  `created` is an
`Option` because the source copies `t.fields.created` through unchecked. -/
structure Ticket where
  epic : Option String
  key : String
  summary : Option String
  status : String
  created : Option String
  resolved : Option String
  svp : Option String
  reporter : Option String
  deriving DecidableEq, Repr

/-- Model of the JavaScript `substring(0, n)` call: the first `n` characters
of the string (the whole string when it is shorter).  It is defined over the
character list so that it reduces even on symbolic strings; it agrees with
`String.take` (`jsSubstring_eq_take`). -/
def jsSubstring (s : String) (n : Nat) : String :=
  String.mk (s.data.take n)

theorem jsSubstring_eq_take (s : String) (n : Nat) : jsSubstring s n = s.take n :=
  (String.take_eq s n).symm

/-- Model of the JavaScript `String.prototype.startsWith` call used in the
epic-resolution fallback of src/index.ts line 101. -/
def jsStartsWith (s p : String) : Bool :=
  s.data.take p.data.length == p.data

/-- The `find` predicate of src/index.ts line 101: a link qualifies when its
type is named "Relates" and its outward issue key starts with "CENPRO".
Safe navigation (`link.outwardIssue?.key?.startsWith`) makes the predicate
false when the outward issue or its key is absent. -/
def qualifies (link : IssueLink) : Bool :=
  link.type.name == "Relates" &&
    (match link.outwardIssue with
     | some o =>
       (match o.key with
        | some k => jsStartsWith k "CENPRO"
        | none => false)
     | none => false)

/-- Error message used for a direct access on an absent outward issue. -/
def outwardAccessError : String :=
  "TypeError: cannot read key of undefined"

/-- Error message used for `t.fields.status.name` when `status` is absent. -/
def statusAccessError : String :=
  "TypeError: cannot read name of undefined"

/-- Error message used for `ticket.created.substring` when `created` is
absent. -/
def createdAccessError : String :=
  "TypeError: cannot read substring of undefined"

/-- The fallback branch of the epic resolution (src/index.ts line 101):
`t.fields.issuelinks?.find(...)?.outwardIssue.key`.  The `find` result is
dereferenced with `?.` but its `outwardIssue` field is then accessed
directly, which throws when the found link has no outward issue (the
`qualifies` predicate in fact rules this out; see `epicFallback_ok`). -/
def epicFallback (links : Option (List IssueLink)) : Except String (Option String) :=
  match links with
  | none => Except.ok none
  | some ls =>
    match ls.find? qualifies with
    | none => Except.ok none
    | some link =>
      match link.outwardIssue with
      | none => Except.error outwardAccessError
      | some o => Except.ok o.key

/-- Epic resolution (src/index.ts line 101):
`t.fields.customfield_10002 || fallback`.  JavaScript `||` takes the
fallback when the explicit epic-link field is absent or the empty string
(both are falsy). -/
def resolveEpic (f : RawFields) : Except String (Option String) :=
  match f.customfield_10002 with
  | none => epicFallback f.issuelinks
  | some s => if s = "" then epicFallback f.issuelinks else Except.ok (some s)

/-- The `t.fields.labels?.includes('ExecReject')` test of src/index.ts
line 103; an absent labels array yields `undefined`, which is falsy. -/
def execRejectLabel (f : RawFields) : Bool :=
  match f.labels with
  | some ls => ls.contains "ExecReject"
  | none => false

/-- The `t.fields.resolution?.name !== 'Done'` test of src/index.ts
line 103; an absent resolution yields `undefined`, which differs from
"Done", so the test is true. -/
def resolutionNotDone (f : RawFields) : Bool :=
  match f.resolution with
  | some r => r.name != "Done"
  | none => true

/-- Status derivation (src/index.ts line 103).  The direct access
`t.fields.status.name` throws when `status` is absent. -/
def deriveStatus (f : RawFields) : Except String String :=
  match f.status with
  | none => Except.error statusAccessError
  | some st =>
    Except.ok
      (if st.name = "Done" then
        (if execRejectLabel f || resolutionNotDone f then "Rejected" else "Done")
      else st.name)

/-- Normalization of one raw ticket: the object literal built inside the
`.map` of `getTickets` (src/index.ts lines 100-108).  The `epic` expression
is evaluated before the `status` expression, matching the field order of the
object literal. -/
def normalize (t : RawTicket) : Except String Ticket :=
  match resolveEpic t.fields with
  | Except.error e => Except.error e
  | Except.ok epic =>
    match deriveStatus t.fields with
    | Except.error e => Except.error e
    | Except.ok status =>
      Except.ok
        { epic := epic
          key := t.key
          summary := t.fields.summary
          status := status
          created := t.fields.created
          resolved := t.fields.resolutiondate
          svp := t.fields.customfield_28100.map DisplayNameObj.displayName
          reporter := t.fields.reporter.map DisplayNameObj.displayName }

/-- The report-ready projection of a ticket. -/
structure GenericIssue where
  key : String
  title : Option String
  status : String
  created : String
  resolved : Option String
  deriving DecidableEq, Repr

/-- A clarification-request row: the generic projection plus the reporter
(`Scr extends GenericIssue` in the source). -/
structure Scr where
  key : String
  title : Option String
  status : String
  created : String
  resolved : Option String
  reporter : Option String
  deriving DecidableEq, Repr

/-- An aggregated epic: the generic projection plus the SVP owner and the
two child sequences (`Epic extends GenericIssue` in the source). -/
structure Epic where
  key : String
  title : Option String
  status : String
  created : String
  resolved : Option String
  svp : Option String
  stories : List GenericIssue
  scrs : List Scr
  deriving DecidableEq, Repr

/-- The projection `toGenericIssue` (src/index.ts lines 132-140).  The direct
call `ticket.created.substring(0, 10)` throws when `created` is absent,
while `ticket.resolved?.substring(0, 10)` is safe. -/
def toGenericIssue (ticket : Ticket) : Except String GenericIssue :=
  match ticket.created with
  | none => Except.error createdAccessError
  | some c =>
    Except.ok
      { key := ticket.key
        created := jsSubstring c 10
        status := ticket.status
        title := ticket.summary
        resolved := ticket.resolved.map (fun s => jsSubstring s 10) }

/-- The page size constant of `getTickets` (src/index.ts line 62). -/
def PAGE_SIZE : Nat := 250

/-- The body of the POST to `/search` built by `readJiraPage`
(src/index.ts lines 64-84). -/
structure SearchRequest where
  jql : String
  fields : List String
  startAt : Nat
  maxResults : Nat
  deriving DecidableEq, Repr

/-- The explicit field-selection list of the search request. -/
def searchFields : List String :=
  ["id", "reporter", "customfield_10002", "customfield_28100", "summary",
   "created", "resolutiondate", "status", "issuelinks", "labels", "resolution"]

/-- One page request (src/index.ts lines 64-84).  The transport is abstracted
as a function from the request body to `response.data.issues`, which may be
absent. -/
def readJiraPage (fetch : SearchRequest → Option (List RawTicket))
    (jql : String) (startAt : Nat) : Option (List RawTicket) :=
  fetch { jql := jql, fields := searchFields, startAt := startAt, maxResults := PAGE_SIZE }

/-- The pagination loop of `readAllJiraTickets` (src/index.ts lines 86-97):
starting at the given offset, request a page; a page with at least one
record is accumulated and the offset advances by `PAGE_SIZE`; an empty or
absent page ends the loop.  The JavaScript loop is unbounded, so it is
modelled with fuel: `none` is the out-of-fuel (divergence) case. -/
def readAllJiraTickets (fetch : SearchRequest → Option (List RawTicket))
    (jql : String) : Nat → Nat → Option (List RawTicket)
  | 0, _ => none
  | fuel + 1, startAt =>
    match readJiraPage fetch jql startAt with
    | some (t :: ts) =>
      Option.map (fun rest => (t :: ts) ++ rest)
        (readAllJiraTickets fetch jql fuel (startAt + PAGE_SIZE))
    | some [] => some []
    | none => some []

/-- The whole of `getTickets` (src/index.ts lines 60-109): fetch every page,
then normalize each raw record; the first raw record whose normalization
throws aborts the run. -/
def getTickets (fetch : SearchRequest → Option (List RawTicket))
    (jql : String) (fuel : Nat) : Option (Except String (List Ticket)) :=
  (readAllJiraTickets fetch jql fuel 0).map (fun raws => raws.mapM normalize)

/-- The `consolidated` object of `main`, keyed by epic key.  A JavaScript
object with non-index string keys enumerates in insertion order, so it is
modelled as an association list. -/
abbrev EpicMap := List (String × Epic)

/-- Membership test for the epic map (`if (consolidated[k])`). -/
def epicHas (m : EpicMap) (k : String) : Bool :=
  m.any (fun p => p.1 == k)

/-- Assignment `consolidated[k] = e`: overwriting keeps the original
insertion position, a fresh key is appended at the end. -/
def setEpic (m : EpicMap) (k : String) (e : Epic) : EpicMap :=
  if epicHas m k then m.map (fun p => if p.1 == k then (p.1, e) else p)
  else m ++ [(k, e)]

/-- In-place `consolidated[k].stories.push(g)`. -/
def pushStory (m : EpicMap) (k : String) (g : GenericIssue) : EpicMap :=
  m.map (fun p =>
    if p.1 == k then (p.1, { p.2 with stories := p.2.stories ++ [g] }) else p)

/-- In-place `consolidated[k].scrs.push(s)`. -/
def pushScr (m : EpicMap) (k : String) (s : Scr) : EpicMap :=
  m.map (fun p =>
    if p.1 == k then (p.1, { p.2 with scrs := p.2.scrs ++ [s] }) else p)

/-- The first loop of `main` (src/index.ts lines 177-184): every epic ticket
is projected and inserted into the map with empty child sequences. -/
def consolidateEpics : EpicMap → List Ticket → Except String EpicMap
  | m, [] => Except.ok m
  | m, e :: rest =>
    match toGenericIssue e with
    | Except.error err => Except.error err
    | Except.ok g =>
      consolidateEpics
        (setEpic m e.key
          { key := g.key, title := g.title, status := g.status,
            created := g.created, resolved := g.resolved,
            svp := e.svp, stories := [], scrs := [] }) rest

/-- One story-attachment step (the body of the second loop of `main`,
src/index.ts lines 185-189): a story whose `epic` is absent or matches no
map key is skipped; the projection only runs for a matching story. -/
def addStory (m : EpicMap) (story : Ticket) : Except String EpicMap :=
  match story.epic with
  | none => Except.ok m
  | some k =>
    if epicHas m k then
      match toGenericIssue story with
      | Except.error err => Except.error err
      | Except.ok g => Except.ok (pushStory m k g)
    else Except.ok m

/-- One clarification-request attachment step (the body of the third loop of
`main`, src/index.ts lines 190-192), carrying the reporter forward. -/
def addScr (m : EpicMap) (scr : Ticket) : Except String EpicMap :=
  match scr.epic with
  | none => Except.ok m
  | some k =>
    if epicHas m k then
      match toGenericIssue scr with
      | Except.error err => Except.error err
      | Except.ok g =>
        Except.ok
          (pushScr m k
            { key := g.key, title := g.title, status := g.status,
              created := g.created, resolved := g.resolved,
              reporter := scr.reporter })
    else Except.ok m

/-- The second loop of `main` in full. -/
def attachStories : EpicMap → List Ticket → Except String EpicMap
  | m, [] => Except.ok m
  | m, s :: rest =>
    match addStory m s with
    | Except.error err => Except.error err
    | Except.ok m2 => attachStories m2 rest

/-- The third loop of `main` in full. -/
def attachScrs : EpicMap → List Ticket → Except String EpicMap
  | m, [] => Except.ok m
  | m, s :: rest =>
    match addScr m s with
    | Except.error err => Except.error err
    | Except.ok m2 => attachScrs m2 rest

/-- A flattened report row points at its epic and carries either a story or
a clarification request. -/
inductive Child where
  | story (s : GenericIssue)
  | scr (s : Scr)
  deriving DecidableEq, Repr

/-- One row of the flattened report. -/
structure Row where
  epic : Epic
  type : String
  child : Child
  deriving DecidableEq, Repr

/-- Row constructor of the first `flatMap` of src/index.ts line 194. -/
def storyRowOf (e : Epic) (s : GenericIssue) : Row :=
  { epic := e, type := "Story", child := Child.story s }

/-- Row constructor of the second `flatMap` of src/index.ts line 195. -/
def scrRowOf (e : Epic) (s : Scr) : Row :=
  { epic := e, type := "SCR", child := Child.scr s }

/-- The `flattened` computation (src/index.ts lines 194-195): all story rows
over the map values, concatenated with all SCR rows over the map values. -/
def flattenRows (m : EpicMap) : List Row :=
  (m.flatMap fun p => p.2.stories.map (storyRowOf p.2))
    ++ (m.flatMap fun p => p.2.scrs.map (scrRowOf p.2))

/-- The aggregation and flattening stages of `main` (src/index.ts
lines 177-195), taking the three already-normalized ticket lists. -/
def mainPipeline (scrs stories epics : List Ticket) : Except String (List Row) :=
  match consolidateEpics [] epics with
  | Except.error err => Except.error err
  | Except.ok m0 =>
    match attachStories m0 stories with
    | Except.error err => Except.error err
    | Except.ok m1 =>
      match attachScrs m1 scrs with
      | Except.error err => Except.error err
      | Except.ok m2 => Except.ok (flattenRows m2)

/-- The status classification in the words of the specification: when the
raw status name is exactly "Done", the ticket is "Rejected" when the labels
set contains "ExecReject" or the resolution name is not "Done" (an absent
resolution has no name equal to "Done"), otherwise "Done"; any other raw
status name passes through verbatim. -/
def statusPerClaim (f : RawFields) (st : NameObj) : String :=
  if st.name = "Done" then
    if "ExecReject" ∈ f.labels.getD [] ∨ f.resolution.map NameObj.name ≠ some "Done" then
      "Rejected"
    else "Done"
  else st.name

/-- The epic fallback in the words of the specification: the linked-issue
key of the first issue-link whose type is named "Relates" and whose
linked-issue key starts with "CENPRO"; absent when no entry qualifies. -/
def fallbackPerClaim (links : Option (List IssueLink)) : Option String :=
  ((links.getD []).find? qualifies).bind fun link =>
    link.outwardIssue.bind OutwardIssue.key

/-- The epic resolution in the words of the specification, amended for the
empty-string case: the explicit epic-link field is used when it is present
and non-empty; when it is absent or the empty string the fallback search
over the issue-links applies. -/
def epicPerClaim (f : RawFields) : Option String :=
  match f.customfield_10002 with
  | none => fallbackPerClaim f.issuelinks
  | some s => if s = "" then fallbackPerClaim f.issuelinks else some s

/-- The normalized ticket that `normalize` produces for a raw ticket whose
status structure is present (see `normalize_ok`). -/
def ticketOf (raw : RawTicket) (st : NameObj) : Ticket :=
  { epic := epicPerClaim raw.fields
    key := raw.key
    summary := raw.fields.summary
    status := statusPerClaim raw.fields st
    created := raw.fields.created
    resolved := raw.fields.resolutiondate
    svp := raw.fields.customfield_28100.map DisplayNameObj.displayName
    reporter := raw.fields.reporter.map DisplayNameObj.displayName }

theorem status_cond_iff (f : RawFields) :
    (execRejectLabel f || resolutionNotDone f) = true ↔
      ("ExecReject" ∈ f.labels.getD [] ∨ f.resolution.map NameObj.name ≠ some "Done") := by
  cases hl : f.labels <;> cases hr : f.resolution <;>
    simp [execRejectLabel, resolutionNotDone, hl, hr]

theorem deriveStatus_ok (f : RawFields) (st : NameObj) (h : f.status = some st) :
    deriveStatus f = Except.ok (statusPerClaim f st) := by
  unfold deriveStatus statusPerClaim
  rw [h]
  by_cases hd : st.name = "Done"
  · simp only [hd, if_true]
    exact congrArg Except.ok (if_congr (status_cond_iff f) rfl rfl)
  · simp [hd]

theorem epicFallback_ok (links : Option (List IssueLink)) :
    epicFallback links = Except.ok (fallbackPerClaim links) := by
  unfold epicFallback fallbackPerClaim
  cases links with
  | none => simp
  | some ls =>
    simp only [Option.getD_some]
    cases hf : ls.find? qualifies with
    | none => simp
    | some link =>
      have hq : qualifies link = true := List.find?_some hf
      unfold qualifies at hq
      cases ho : link.outwardIssue with
      | none => rw [ho] at hq; simp at hq
      | some o => simp [ho]

theorem resolveEpic_ok (f : RawFields) :
    resolveEpic f = Except.ok (epicPerClaim f) := by
  unfold resolveEpic epicPerClaim
  cases f.customfield_10002 with
  | none => exact epicFallback_ok f.issuelinks
  | some s =>
    by_cases hs : s = ""
    · simp [hs, epicFallback_ok]
    · simp [hs]

theorem normalize_ok (raw : RawTicket) (st : NameObj) (h : raw.fields.status = some st) :
    normalize raw = Except.ok (ticketOf raw st) := by
  unfold normalize ticketOf
  rw [resolveEpic_ok, deriveStatus_ok raw.fields st h]

theorem normalize_error_no_status (raw : RawTicket) (h : raw.fields.status = none) :
    normalize raw = Except.error statusAccessError := by
  unfold normalize
  rw [resolveEpic_ok]
  simp [deriveStatus, h]

theorem toGenericIssue_ok (t : Ticket) (c : String) (h : t.created = some c) :
    toGenericIssue t =
      Except.ok
        { key := t.key, created := jsSubstring c 10, status := t.status,
          title := t.summary, resolved := t.resolved.map (fun s => jsSubstring s 10) } := by
  unfold toGenericIssue
  rw [h]

/-- A fully populated raw `fields` object used by concrete witnesses. -/
def sampleFields : RawFields :=
  { labels := some ["Triage"]
    summary := some "Sample ticket"
    created := some "2023-05-01T10:00:00.000Z"
    customfield_10002 := none
    resolutiondate := some "2023-06-02T11:00:00.000Z"
    customfield_28100 := some { displayName := "Ann Smith" }
    reporter := some { displayName := "Bob Roe" }
    status := some { name := "Done" }
    resolution := some { name := "Done" }
    issuelinks := some [{ type := { name := "Relates" },
                          outwardIssue := some { key := some "CENPRO-42" } }] }

/-- Claim C1: for every raw ticket (with the status structure present, since
the claim speaks of the raw status name), the normalized status is "Rejected"
when the raw status name is exactly "Done" and the labels set contains
"ExecReject" or the resolution name is not "Done"; it is "Done" when the raw
status name is "Done" and neither condition holds; and it is the raw status
name verbatim otherwise — the rule stated by `statusPerClaim`. -/
theorem claim1_status_derivation (raw : RawTicket) (st : NameObj)
    (h : raw.fields.status = some st) :
    ∃ t, normalize raw = Except.ok t ∧ t.status = statusPerClaim raw.fields st :=
  ⟨ticketOf raw st, normalize_ok raw st h, rfl⟩

def c1Raw : RawTicket := { key := "CENPRO-1", fields := sampleFields }

theorem claim1_status_derivation_witness :
    c1Raw.fields.status = some { name := "Done" } ∧
    (∃ t, normalize c1Raw = Except.ok t ∧
      t.status = statusPerClaim c1Raw.fields { name := "Done" }) ∧
    statusPerClaim c1Raw.fields { name := "Done" } = "Done" :=
  ⟨rfl, claim1_status_derivation c1Raw { name := "Done" } rfl, by decide⟩

def c2Raw : RawTicket :=
  { key := "CENPRO-2", fields := { sampleFields with customfield_10002 := some "" } }

def c2Ticket : Ticket :=
  { epic := some "CENPRO-42", key := "CENPRO-2", summary := some "Sample ticket",
    status := "Done", created := some "2023-05-01T10:00:00.000Z",
    resolved := some "2023-06-02T11:00:00.000Z", svp := some "Ann Smith",
    reporter := some "Bob Roe" }

/-- Claim C2 counterexample: a raw ticket whose explicit epic-link field is
present but equal to the empty string; the code ignores the present field and
resolves the epic from the issue-links instead, so the normalized epic does
not equal the present explicit field. -/
theorem claim2_epic_explicit_counterexample :
    c2Raw.fields.customfield_10002 = some "" ∧
    normalize c2Raw = Except.ok c2Ticket ∧
    c2Ticket.epic = some "CENPRO-42" ∧
    c2Ticket.epic ≠ c2Raw.fields.customfield_10002 :=
  ⟨rfl, rfl, rfl, by decide⟩

/-- Claim C2 (amended): the normalized epic equals the explicit epic-link
field when that field is present and non-empty; when it is absent or empty it
equals the linked-issue key of the first issue-link whose type is named
"Relates" and whose linked-issue key starts with "CENPRO", in link-list
order, and it is undefined when no such entry exists — the rule stated by
`epicPerClaim`. -/
theorem claim2_epic_resolution_amended (raw : RawTicket) (st : NameObj)
    (h : raw.fields.status = some st) :
    ∃ t, normalize raw = Except.ok t ∧ t.epic = epicPerClaim raw.fields :=
  ⟨ticketOf raw st, normalize_ok raw st h, rfl⟩

def c2wRaw : RawTicket := { key := "CENPRO-3", fields := sampleFields }

theorem claim2_epic_resolution_amended_witness :
    c2wRaw.fields.status = some { name := "Done" } ∧
    (∃ t, normalize c2wRaw = Except.ok t ∧ t.epic = epicPerClaim c2wRaw.fields) ∧
    epicPerClaim c2wRaw.fields = some "CENPRO-42" :=
  ⟨rfl, claim2_epic_resolution_amended c2wRaw { name := "Done" } rfl, by decide⟩

/-- Claim C7: for a ticket whose created timestamp is present, the
generic-issue projection sets `created` to the first 10 characters of that
timestamp and `resolved` to the first 10 characters of the resolved
timestamp when present, or leaves it undefined when absent. -/
theorem claim7_date_truncation (t : Ticket) (c : String) (h : t.created = some c) :
    ∃ g, toGenericIssue t = Except.ok g ∧ g.created = c.take 10 ∧
      g.resolved = t.resolved.map (fun s => s.take 10) := by
  refine ⟨{ key := t.key, created := jsSubstring c 10, status := t.status,
            title := t.summary, resolved := t.resolved.map (fun s => jsSubstring s 10) },
    toGenericIssue_ok t c h, jsSubstring_eq_take c 10, ?_⟩
  cases t.resolved <;> simp [jsSubstring_eq_take]

def c7Ticket : Ticket :=
  { epic := none, key := "CENPRO-7", summary := some "Story seven", status := "Done",
    created := some "2023-05-01T10:00:00.000Z", resolved := none,
    svp := none, reporter := none }

theorem claim7_date_truncation_witness :
    c7Ticket.created = some "2023-05-01T10:00:00.000Z" ∧
    (∃ g, toGenericIssue c7Ticket = Except.ok g ∧
      g.created = "2023-05-01" ∧ g.resolved = none) := by
  refine ⟨rfl, ?_⟩
  obtain ⟨g, h1, h2, h3⟩ :=
    claim7_date_truncation c7Ticket "2023-05-01T10:00:00.000Z" rfl
  exact ⟨g, h1, h2.trans (by decide), h3.trans rfl⟩

def c8NoStatusRaw : RawTicket :=
  { key := "CENPRO-8", fields := { sampleFields with status := none } }

def c8NoCreatedTicket : Ticket :=
  { epic := none, key := "CENPRO-80", summary := some "Story eighty",
    status := "Open", created := none, resolved := none, svp := none, reporter := none }

/-- Claim C8 counterexample: a raw ticket with the status structure absent
makes normalization throw instead of degrading to an undefined field, and a
ticket with the created timestamp absent makes the generic-issue projection
throw. -/
theorem claim8_safe_navigation_counterexample :
    c8NoStatusRaw.fields.status = none ∧
    normalize c8NoStatusRaw = Except.error statusAccessError ∧
    c8NoCreatedTicket.created = none ∧
    toGenericIssue c8NoCreatedTicket = Except.error createdAccessError :=
  ⟨rfl, rfl, rfl, rfl⟩

/-- Claim C8 (amended): absence of the reporter, the owner, the resolution,
the issue-links, the labels, or either timestamp is tolerated by the
normalizer — the corresponding normalized field is undefined — provided the
status structure is present; but a raw ticket with an absent status structure
makes normalization throw, and a normalized ticket with an absent created
timestamp makes the generic-issue projection throw, while an absent resolved
timestamp degrades to an undefined projected field. -/
theorem claim8_safe_navigation_amended (raw : RawTicket) (st : NameObj)
    (h : raw.fields.status = some st) :
    (∃ t, normalize raw = Except.ok t ∧
       (raw.fields.reporter = none → t.reporter = none) ∧
       (raw.fields.customfield_28100 = none → t.svp = none) ∧
       (raw.fields.resolutiondate = none → t.resolved = none) ∧
       (raw.fields.created = none → t.created = none) ∧
       (raw.fields.customfield_10002 = none → raw.fields.issuelinks = none →
         t.epic = none)) ∧
    (∀ raw2 : RawTicket, raw2.fields.status = none →
       normalize raw2 = Except.error statusAccessError) ∧
    (∀ t2 : Ticket, t2.created = none →
       toGenericIssue t2 = Except.error createdAccessError) ∧
    (∀ t2 : Ticket, ∀ c, t2.created = some c →
       ∃ g, toGenericIssue t2 = Except.ok g ∧
         (t2.resolved = none → g.resolved = none)) := by
  refine ⟨⟨ticketOf raw st, normalize_ok raw st h, ?_, ?_, ?_, ?_, ?_⟩,
    fun raw2 h2 => normalize_error_no_status raw2 h2,
    fun t2 h2 => by unfold toGenericIssue; rw [h2],
    fun t2 c h2 => ⟨_, toGenericIssue_ok t2 c h2, fun hr => by simp [hr]⟩⟩
  · intro hn; simp [ticketOf, hn]
  · intro hn; simp [ticketOf, hn]
  · intro hn; simp [ticketOf, hn]
  · intro hn; simp [ticketOf, hn]
  · intro hcf hil
    simp [ticketOf, epicPerClaim, fallbackPerClaim, hcf, hil]

def c8wRaw : RawTicket :=
  { key := "CENPRO-81",
    fields :=
      { labels := none, summary := none, created := none, customfield_10002 := none,
        resolutiondate := none, customfield_28100 := none, reporter := none,
        status := some { name := "Open" }, resolution := none, issuelinks := none } }

theorem claim8_safe_navigation_amended_witness :
    c8wRaw.fields.status = some { name := "Open" } ∧
    ((∃ t, normalize c8wRaw = Except.ok t ∧
       (c8wRaw.fields.reporter = none → t.reporter = none) ∧
       (c8wRaw.fields.customfield_28100 = none → t.svp = none) ∧
       (c8wRaw.fields.resolutiondate = none → t.resolved = none) ∧
       (c8wRaw.fields.created = none → t.created = none) ∧
       (c8wRaw.fields.customfield_10002 = none → c8wRaw.fields.issuelinks = none →
         t.epic = none)) ∧
    (∀ raw2 : RawTicket, raw2.fields.status = none →
       normalize raw2 = Except.error statusAccessError) ∧
    (∀ t2 : Ticket, t2.created = none →
       toGenericIssue t2 = Except.error createdAccessError) ∧
    (∀ t2 : Ticket, ∀ c, t2.created = some c →
       ∃ g, toGenericIssue t2 = Except.ok g ∧
         (t2.resolved = none → g.resolved = none))) :=
  ⟨rfl, claim8_safe_navigation_amended c8wRaw { name := "Open" } rfl⟩

/-- Claim C9: a raw ticket whose status name is "Done" and whose resolution
structure is entirely absent normalizes to status "Rejected", whatever the
labels are. -/
theorem claim9_absent_resolution_rejected (raw : RawTicket) (st : NameObj)
    (h1 : raw.fields.status = some st) (h2 : st.name = "Done")
    (h3 : raw.fields.resolution = none) :
    ∃ t, normalize raw = Except.ok t ∧ t.status = "Rejected" := by
  refine ⟨ticketOf raw st, normalize_ok raw st h1, ?_⟩
  simp [ticketOf, statusPerClaim, h2, h3]

def c9Raw : RawTicket :=
  { key := "CENPRO-9",
    fields := { sampleFields with resolution := none, labels := some ["Triage"] } }

theorem claim9_absent_resolution_rejected_witness :
    c9Raw.fields.status = some { name := "Done" } ∧
    NameObj.name { name := "Done" } = "Done" ∧
    c9Raw.fields.resolution = none ∧
    (∃ t, normalize c9Raw = Except.ok t ∧ t.status = "Rejected") :=
  ⟨rfl, rfl, rfl,
    claim9_absent_resolution_rejected c9Raw { name := "Done" } rfl rfl rfl⟩

/-- Claim C10: an explicit epic-link field equal to the empty string is not
used; normalization behaves exactly as if the field were absent, so the
fallback search over the issue-links applies. -/
theorem claim10_empty_epic_link (raw : RawTicket)
    (h : raw.fields.customfield_10002 = some "") :
    normalize raw =
      normalize { raw with fields := { raw.fields with customfield_10002 := none } } := by
  unfold normalize
  rw [resolveEpic_ok, resolveEpic_ok]
  simp [epicPerClaim, deriveStatus, execRejectLabel, resolutionNotDone, h]

def c10Raw : RawTicket :=
  { key := "CENPRO-10", fields := { sampleFields with customfield_10002 := some "" } }

theorem claim10_empty_epic_link_witness :
    c10Raw.fields.customfield_10002 = some "" ∧
    normalize c10Raw =
      normalize { c10Raw with fields := { c10Raw.fields with customfield_10002 := none } } :=
  ⟨rfl, claim10_empty_epic_link c10Raw rfl⟩

theorem readAll_go (fetch : SearchRequest → Option (List RawTicket)) (jql : String)
    (ps : Nat → List RawTicket) (n : Nat) :
    ∀ fuel k, n < fuel →
    (∀ i, i < n →
      readJiraPage fetch jql (250 * (k + i)) = some (ps (k + i)) ∧ ps (k + i) ≠ []) →
    (readJiraPage fetch jql (250 * (k + n)) = some [] ∨
      readJiraPage fetch jql (250 * (k + n)) = none) →
    readAllJiraTickets fetch jql fuel (250 * k) =
      some ((List.range n).map (fun i => ps (k + i))).flatten := by
  induction n with
  | zero =>
    intro fuel k hf hne hend
    obtain ⟨f, rfl⟩ : ∃ f, fuel = f + 1 := ⟨fuel - 1, by omega⟩
    simp only [readAllJiraTickets]
    rw [Nat.add_zero] at hend
    rcases hend with h | h <;> rw [h] <;> simp
  | succ n ih =>
    intro fuel k hf hne hend
    obtain ⟨f, rfl⟩ : ∃ f, fuel = f + 1 := ⟨fuel - 1, by omega⟩
    obtain ⟨hpage, hnil⟩ :
        readJiraPage fetch jql (250 * (k + 0)) = some (ps (k + 0)) ∧ ps (k + 0) ≠ [] :=
      hne 0 (Nat.succ_pos n)
    rw [Nat.add_zero] at hpage hnil
    obtain ⟨t, ts, hts⟩ := List.exists_cons_of_ne_nil hnil
    have hrec := ih f (k + 1) (by omega)
      (fun i hi => by
        have h := hne (i + 1) (by omega)
        rwa [show k + (i + 1) = k + 1 + i from by omega] at h)
      (by rwa [show k + 1 + n = k + (n + 1) from by omega])
    simp only [readAllJiraTickets]
    rw [hpage, hts]
    simp only [PAGE_SIZE]
    rw [← Nat.mul_succ, hrec, ← hts]
    simp only [Option.map_some', List.range_succ_eq_map, List.map_cons, List.map_map,
      List.flatten_cons, Nat.add_zero]
    congr 3
    apply List.map_congr_left
    intro a _
    simp only [Function.comp_apply]
    congr 1
    omega

/-- Claim C3: the fetcher requests pages starting at offset 0 and advances
the offset by 250 after each non-empty page (`readJiraPage` fixes
`maxResults` to `PAGE_SIZE = 250`); the loop stops at the first page whose
record list is empty or absent and returns the concatenation of all
non-empty pages in order.  The hypothesis `n < fuel` only says the modelled
loop is given enough fuel to reach the terminating page. -/
theorem claim3_pagination (fetch : SearchRequest → Option (List RawTicket))
    (jql : String) (fuel n : Nat) (ps : Nat → List RawTicket)
    (hfuel : n < fuel)
    (hne : ∀ i, i < n → readJiraPage fetch jql (250 * i) = some (ps i) ∧ ps i ≠ [])
    (hend : readJiraPage fetch jql (250 * n) = some [] ∨
      readJiraPage fetch jql (250 * n) = none) :
    readAllJiraTickets fetch jql fuel 0 = some ((List.range n).map ps).flatten := by
  have h := readAll_go fetch jql ps n fuel 0 hfuel (by simpa using hne) (by simpa using hend)
  simpa using h

def c3Raw : RawTicket := { key := "CENPRO-30", fields := sampleFields }

/-- A fetcher stub returning 250 records at offsets 0 and 250 and an empty
page everywhere else. -/
def c3Fetch : SearchRequest → Option (List RawTicket) := fun r =>
  if r.startAt = 0 ∨ r.startAt = 250 then some (List.replicate 250 c3Raw) else some []

theorem replicate_250_ne_nil (a : RawTicket) : List.replicate 250 a ≠ [] := fun hcon => by
  have h := congrArg List.length hcon
  rw [List.length_replicate] at h
  exact absurd h (by decide)

theorem claim3_pagination_witness :
    (2 : Nat) < 3 ∧
    readAllJiraTickets c3Fetch "project = CENPRO" 3 0 = some (List.replicate 500 c3Raw) ∧
    (List.replicate 500 c3Raw).length = 500 := by
  refine ⟨by decide, ?_, List.length_replicate 500 c3Raw⟩
  have h := claim3_pagination c3Fetch "project = CENPRO" 3 2
    (fun _ => List.replicate 250 c3Raw) (by decide)
    (fun i hi => by interval_cases i <;> exact ⟨rfl, replicate_250_ne_nil c3Raw⟩)
    (Or.inl rfl)
  rw [h]
  have h2 : (List.range 2).map (fun _ : Nat => List.replicate 250 c3Raw) =
      [List.replicate 250 c3Raw, List.replicate 250 c3Raw] := rfl
  rw [h2]
  simp only [List.flatten_cons, List.flatten_nil, List.append_nil, ← List.replicate_add]

theorem mem_story_part (m : EpicMap) (r : Row)
    (hr : r ∈ m.flatMap fun p => p.2.stories.map (storyRowOf p.2)) :
    r.type = "Story" := by
  obtain ⟨p, hp, hr2⟩ := List.mem_flatMap.mp hr
  obtain ⟨s, hs, rfl⟩ := List.mem_map.mp hr2
  rfl

theorem mem_scr_part (m : EpicMap) (r : Row)
    (hr : r ∈ m.flatMap fun p => p.2.scrs.map (scrRowOf p.2)) :
    r.type = "SCR" := by
  obtain ⟨p, hp, hr2⟩ := List.mem_flatMap.mp hr
  obtain ⟨s, hs, rfl⟩ := List.mem_map.mp hr2
  rfl

/-- Claim C4: the flattened sequence is exactly the story rows — map order,
then per-epic append order — followed by the SCR rows in the same order, so
every row tagged "Story" sits at a strictly smaller index than every row
tagged "SCR". -/
theorem claim4_flatten_ordering (m : EpicMap) :
    flattenRows m =
      (m.map (fun p => p.2.stories.map (storyRowOf p.2))).flatten ++
        (m.map (fun p => p.2.scrs.map (scrRowOf p.2))).flatten ∧
    ∀ i j, (hi : i < (flattenRows m).length) → (hj : j < (flattenRows m).length) →
      ((flattenRows m)[i]).type = "Story" → ((flattenRows m)[j]).type = "SCR" → i < j := by
  constructor
  · simp [flattenRows, List.flatMap_def]
  · intro i j hi hj hstory hscr
    simp only [flattenRows] at hi hj hstory hscr
    have hiA : i < (m.flatMap fun p => p.2.stories.map (storyRowOf p.2)).length := by
      by_contra hc
      push_neg at hc
      have hmem : ((m.flatMap fun p => p.2.stories.map (storyRowOf p.2)) ++
          (m.flatMap fun p => p.2.scrs.map (scrRowOf p.2)))[i] ∈
          (m.flatMap fun p => p.2.scrs.map (scrRowOf p.2)) := by
        rw [List.getElem_append_right hc]
        exact List.getElem_mem _
      have htype := mem_scr_part m _ hmem
      rw [hstory] at htype
      exact absurd htype (by decide)
    have hjB : (m.flatMap fun p => p.2.stories.map (storyRowOf p.2)).length ≤ j := by
      by_contra hc
      push_neg at hc
      have hmem : ((m.flatMap fun p => p.2.stories.map (storyRowOf p.2)) ++
          (m.flatMap fun p => p.2.scrs.map (scrRowOf p.2)))[j] ∈
          (m.flatMap fun p => p.2.stories.map (storyRowOf p.2)) := by
        rw [List.getElem_append_left hc]
        exact List.getElem_mem _
      have htype := mem_story_part m _ hmem
      rw [hscr] at htype
      exact absurd htype (by decide)
    omega

def c4Story : GenericIssue :=
  { key := "S40", title := some "Story forty", status := "Done",
    created := "2023-02-03", resolved := none }

def c4Scr : Scr :=
  { key := "C40", title := some "Question forty", status := "Open",
    created := "2023-03-04", resolved := none, reporter := some "Bob Roe" }

def c4Epic : Epic :=
  { key := "E40", title := some "Epic forty", status := "Done",
    created := "2023-01-02", resolved := none, svp := some "Ann Smith",
    stories := [c4Story], scrs := [c4Scr] }

def c4Map : EpicMap := [("E40", c4Epic)]

theorem claim4_flatten_ordering_witness :
    ((flattenRows c4Map).get ⟨0, by decide⟩).type = "Story" ∧
    ((flattenRows c4Map).get ⟨1, by decide⟩).type = "SCR" ∧ (0 : Nat) < 1 := by
  refine ⟨rfl, rfl, ?_⟩
  exact (claim4_flatten_ordering c4Map).2 0 1 (by decide) (by decide) rfl rfl

def c5E1 : Ticket :=
  { epic := none, key := "E1", summary := some "Epic one", status := "Done",
    created := some "2023-01-02T03:04:05.000Z", resolved := some "2023-06-07T08:09:10.000Z",
    svp := some "Ann Smith", reporter := none }

def c5S1 : Ticket :=
  { epic := some "E1", key := "S1", summary := some "Story one", status := "Done",
    created := some "2023-02-03T00:00:00.000Z", resolved := none,
    svp := none, reporter := none }

def c5S2 : Ticket :=
  { epic := some "E2", key := "S2", summary := some "Story two", status := "Done",
    created := some "2023-02-04T00:00:00.000Z", resolved := none,
    svp := none, reporter := none }

def c5C1 : Ticket :=
  { epic := some "E1", key := "C1", summary := some "Question one", status := "Open",
    created := some "2023-03-04T00:00:00.000Z", resolved := none,
    svp := none, reporter := some "Bob Roe" }

def c5S1G : GenericIssue :=
  { key := "S1", title := some "Story one", status := "Done",
    created := "2023-02-03", resolved := none }

def c5C1S : Scr :=
  { key := "C1", title := some "Question one", status := "Open",
    created := "2023-03-04", resolved := none, reporter := some "Bob Roe" }

def c5E1Final : Epic :=
  { key := "E1", title := some "Epic one", status := "Done",
    created := "2023-01-02", resolved := some "2023-06-07", svp := some "Ann Smith",
    stories := [c5S1G], scrs := [c5C1S] }

def c5RowS1 : Row := storyRowOf c5E1Final c5S1G

def c5RowC1 : Row := scrRowOf c5E1Final c5C1S

/-- Claim C5: a story or clarification-request ticket whose epic is undefined
or matches no key of the epic map contributes nothing to the map (hence no
row) and raises no error; concretely, with one epic E1, stories S1 (epic E1)
and S2 (epic of the unknown E2) and clarification request C1 (epic E1), the
pipeline yields exactly the two rows S1 under E1 tagged "Story" and C1 under
E1 tagged "SCR". -/
theorem claim5_unmatched_dropped (m : EpicMap) (t : Ticket)
    (h : ∀ k, t.epic = some k → epicHas m k = false) :
    addStory m t = Except.ok m ∧ addScr m t = Except.ok m ∧
    mainPipeline [c5C1] [c5S1, c5S2] [c5E1] = Except.ok [c5RowS1, c5RowC1] := by
  refine ⟨?_, ?_, rfl⟩
  · cases ht : t.epic with
    | none => simp [addStory, ht]
    | some k => simp [addStory, ht, h k ht]
  · cases ht : t.epic with
    | none => simp [addScr, ht]
    | some k => simp [addScr, ht, h k ht]

def c5wMap : EpicMap := [("E1", c5E1Final)]

def c5wTicket : Ticket :=
  { epic := some "E9", key := "S9", summary := some "Story nine", status := "Open",
    created := some "2023-05-05T00:00:00.000Z", resolved := none,
    svp := none, reporter := none }

theorem claim5_unmatched_dropped_witness :
    (∀ k, c5wTicket.epic = some k → epicHas c5wMap k = false) ∧
    (addStory c5wMap c5wTicket = Except.ok c5wMap ∧
     addScr c5wMap c5wTicket = Except.ok c5wMap ∧
     mainPipeline [c5C1] [c5S1, c5S2] [c5E1] = Except.ok [c5RowS1, c5RowC1]) := by
  have hyp : ∀ k, c5wTicket.epic = some k → epicHas c5wMap k = false := by
    intro k hk
    have hk2 : some "E9" = some k := hk
    rw [← Option.some.inj hk2]
    rfl
  exact ⟨hyp, claim5_unmatched_dropped c5wMap c5wTicket hyp⟩

/-- Claim C6: an epic present in the map whose story and SCR sequences are
both empty carries no row of the flattened output. -/
theorem claim6_empty_epic_no_rows (m : EpicMap) (k : String) (e : Epic)
    (_hmem : (k, e) ∈ m) (hs : e.stories = []) (hc : e.scrs = []) :
    ∀ r ∈ flattenRows m, r.epic ≠ e := by
  intro r hr heq
  simp only [flattenRows] at hr
  rcases List.mem_append.mp hr with h | h
  · obtain ⟨p, hp, hr2⟩ := List.mem_flatMap.mp h
    obtain ⟨s, hsm, rfl⟩ := List.mem_map.mp hr2
    rw [show (storyRowOf p.2 s).epic = p.2 from rfl] at heq
    rw [heq, hs] at hsm
    exact absurd hsm (List.not_mem_nil s)
  · obtain ⟨p, hp, hr2⟩ := List.mem_flatMap.mp h
    obtain ⟨s, hsm, rfl⟩ := List.mem_map.mp hr2
    rw [show (scrRowOf p.2 s).epic = p.2 from rfl] at heq
    rw [heq, hc] at hsm
    exact absurd hsm (List.not_mem_nil s)

def c6Epic : Epic :=
  { key := "E0", title := some "Epic zero", status := "Done",
    created := "2023-01-01", resolved := none, svp := none,
    stories := [], scrs := [] }

def c6Story : GenericIssue :=
  { key := "S41", title := some "Story fortyone", status := "Done",
    created := "2023-02-05", resolved := none }

def c6Full : Epic :=
  { key := "E41", title := some "Epic fortyone", status := "Done",
    created := "2023-01-03", resolved := none, svp := none,
    stories := [c6Story], scrs := [] }

def c6Map : EpicMap := [("E0", c6Epic), ("E41", c6Full)]

def c6Row : Row := storyRowOf c6Full c6Story

theorem claim6_empty_epic_no_rows_witness :
    ("E0", c6Epic) ∈ c6Map ∧ c6Epic.stories = [] ∧ c6Epic.scrs = [] ∧
    c6Row ∈ flattenRows c6Map ∧ c6Row.epic ≠ c6Epic := by
  refine ⟨by decide, rfl, rfl, by decide, ?_⟩
  exact claim6_empty_epic_no_rows c6Map "E0" c6Epic (by decide) rfl rfl c6Row (by decide)

end P2Stats
